import Mathlib

/-!
Shallow embedding of the intraday trading engine
(`trading_engine.py`, `risk_manager.py`, `models.py`, `trading_config.py`).

Prices and P&L are modelled as rationals (`ℚ`); Python `int` as `ℤ`.
Computations that can raise a Python exception (division by zero, a failed
brokerage call) are modelled with `Option`: `none` means the computation
raised.  Wall-clock concerns (the setup window, the entry cutoff) are
abstracted into explicit `Bool` parameters of the step function, and the
brokerage round trip of an order into a `Bool` success flag, since the
claims under study do not depend on real time or the network.
-/

/-- `Literal["long", "short"]` from `models.py`. -/
inductive Direction where
  | long : Direction
  | short : Direction
deriving DecidableEq, Repr

/-- `CandleData` from `models.py` (the `timestamp` field is abstracted away;
the Python field `open` is spelled `open_` because `open` is a Lean keyword). -/
structure Candle where
  open_ : ℚ
  high : ℚ
  low : ℚ
  close : ℚ
  volume : ℤ
deriving DecidableEq, Repr

/-- `StrategyState` from `models.py` (the `last_update` timestamp is
abstracted away; no claim depends on it). -/
structure StrategyState where
  symbol : String
  bias : Option Direction := none
  setup_candle : Option Candle := none
  rejection_candle : Option Candle := none
  skip_candles_remaining : ℤ := 0
  entry_price : Option ℚ := none
  stop_loss : Option ℚ := none
  target : Option ℚ := none
  is_position_active : Bool := false
  trade_completed : Bool := false
deriving DecidableEq, Repr

/-- `Position` from `models.py` (timestamps abstracted away; `status` is a
plain string, "ACTIVE" or "CLOSED", exactly as in the source). -/
structure Position where
  id : String
  symbol : String
  direction : Direction
  entry_price : ℚ
  current_price : ℚ
  stop_loss : ℚ
  target : ℚ
  quantity : ℤ
  status : String
  unrealized_pnl : ℚ
deriving DecidableEq, Repr

/-- The order parameters assembled by the engine before calling
`place_order_with_validation` (`trading_engine.py` lines 442-447, 554-559). -/
structure OrderIntent where
  symbol : String
  transaction_type : String
  quantity : ℤ
  price : ℚ
deriving DecidableEq, Repr

/-- `Literal["fixed_capital", "fixed_risk"]` from `models.py`. -/
inductive Sizing where
  | fixed_capital : Sizing
  | fixed_risk : Sizing
deriving DecidableEq, Repr

/-- `TradingSettings` from `models.py`. -/
structure TradingSettings where
  dry_run : Bool := true
  fixed_capital_per_trade : ℚ := 100000
  risk_percent : ℚ := 1
  leverage : ℚ := 1
  position_sizing : Sizing := Sizing.fixed_capital
deriving DecidableEq, Repr

/-- The strategy parameters the engine reads from `TradingConfig`
(`trading_config.py`). -/
structure Config where
  ENTRY_OFFSET : ℚ := 1/100
  SL_OFFSET : ℚ := 1/100
  RISK_REWARD_RATIO : ℚ := 5
  MIN_WICK_PERCENT : ℚ := 15
  SKIP_CANDLES : ℤ := 2
  SMA_PERIOD : ℕ := 50
deriving DecidableEq, Repr

/-- The defaults of `trading_config.py` lines 25-30. -/
def defaultConfig : Config := {}

/-- The defaults of `TradingSettings` in `models.py`. -/
def defaultSettings : TradingSettings := {}

/-- Division as Python performs it: dividing by zero raises
(`ZeroDivisionError`), modelled as `none`. -/
def pyDiv (a b : ℚ) : Option ℚ :=
  if b = 0 then none else some (a / b)

/-- Python `int(...)` applied to a number: truncation toward zero. -/
def pyInt (q : ℚ) : ℤ :=
  if 0 ≤ q then ⌊q⌋ else -⌊-q⌋

/-- `_calculate_sma` (`trading_engine.py` lines 694-700): mean of the last
`period` closes, `0` when fewer than `period` candles exist.  (The Python
`candles[-period:]` slice is the whole list when `period = 0`; the engine
always calls this with `period = SMA_PERIOD ≥ 1` and a non-empty list, so
the division by the length never divides by zero on reachable inputs.) -/
def calculate_sma (candles : List Candle) (period : ℕ) : ℚ :=
  if candles.length < period then 0
  else
    let closes := if period = 0 then candles.map Candle.close
      else (candles.drop (candles.length - period)).map Candle.close
    closes.sum / closes.length

/-- `_check_setup` (`trading_engine.py` lines 320-351): classify the 10 AM
candle against the SMA and update the state (logging omitted). -/
def check_setup (st : StrategyState) (c : Candle) (sma : ℚ) : StrategyState :=
  if c.low > sma then
    { st with bias := some Direction.long, setup_candle := some c }
  else if c.high < sma then
    { st with bias := some Direction.short, setup_candle := some c }
  else
    { st with trade_completed := true }

/-- `_check_rejection` (`trading_engine.py` lines 353-387).  `none` models the
`ZeroDivisionError` raised by the `wick_percent` computation when
`candle_range = high - low = 0` (the division happens before the branch
condition is evaluated, and before any state mutation).  After the bias
branch, the adverse-crossing check of lines 384-387 runs unconditionally —
also on the very call that just confirmed the rejection. -/
def check_rejection (cfg : Config) (st : StrategyState) (c : Candle) (sma : ℚ) :
    Option StrategyState :=
  let range := c.high - c.low
  let afterBias : Option StrategyState :=
    match st.bias with
    | some Direction.long =>
      (pyDiv (min c.open_ c.close - c.low) range).map fun w =>
        let wick_percent := w * 100
        if c.low ≤ sma ∧ sma ≤ min c.open_ c.close ∧
            max c.open_ c.close > sma ∧ wick_percent ≥ cfg.MIN_WICK_PERCENT then
          { st with rejection_candle := some c,
                    skip_candles_remaining := cfg.SKIP_CANDLES }
        else st
    | some Direction.short =>
      (pyDiv (c.high - max c.open_ c.close) range).map fun w =>
        let wick_percent := w * 100
        if max c.open_ c.close ≤ sma ∧ sma ≤ c.high ∧
            min c.open_ c.close < sma ∧ wick_percent ≥ cfg.MIN_WICK_PERCENT then
          { st with rejection_candle := some c,
                    skip_candles_remaining := cfg.SKIP_CANDLES }
        else st
    | none => some st
  afterBias.map fun st1 =>
    if (st.bias = some Direction.long ∧ c.low < sma) ∨
        (st.bias = some Direction.short ∧ c.high > sma) then
      { st1 with trade_completed := true }
    else st1

/-- The entry price computed by `_check_entry` (`trading_engine.py`
lines 395 and 402). -/
def entry_price_for (cfg : Config) (dir : Direction) (rc : Candle) : ℚ :=
  match dir with
  | Direction.long => rc.high + cfg.ENTRY_OFFSET
  | Direction.short => rc.low - cfg.ENTRY_OFFSET

/-- The stop-loss computed by `_check_entry` (`trading_engine.py`
lines 396 and 403). -/
def stop_loss_for (cfg : Config) (dir : Direction) (rc : Candle) : ℚ :=
  match dir with
  | Direction.long => rc.low - cfg.SL_OFFSET
  | Direction.short => rc.high + cfg.SL_OFFSET

/-- The trigger conditions of `_check_entry` (`trading_engine.py`
lines 398 and 405). -/
def entry_triggered (dir : Direction) (c : Candle) (entry : ℚ) : Bool :=
  match dir with
  | Direction.long => entry ≤ c.high
  | Direction.short => c.low ≤ entry

/-- The target computed by `_enter_position` (`trading_engine.py`
lines 435-436): `entry ± risk × RISK_REWARD_RATIO` with `risk = |entry - stop|`. -/
def target_for (cfg : Config) (dir : Direction) (entry stop : ℚ) : ℚ :=
  if dir = Direction.long then entry + |entry - stop| * cfg.RISK_REWARD_RATIO
  else entry - |entry - stop| * cfg.RISK_REWARD_RATIO

/-- `_calculate_quantity` (`trading_engine.py` lines 635-650).  `none` models
the `ZeroDivisionError`: in `fixed_capital` mode when `entry_price = 0`, and
in `fixed_risk` mode when `risk_per_share = |entry - stop| = 0`. -/
def calculate_quantity (s : TradingSettings) (entry_price stop_loss : ℚ) :
    Option ℤ :=
  let base : Option ℤ :=
    if s.position_sizing = Sizing.fixed_capital then
      (pyDiv s.fixed_capital_per_trade entry_price).map pyInt
    else
      let risk_per_share := |entry_price - stop_loss|
      let total_capital := s.fixed_capital_per_trade * 50
      let risk_amount := total_capital * (s.risk_percent / 100)
      (pyDiv risk_amount risk_per_share).map pyInt
  base.map fun q => max 1 (pyInt ((q : ℚ) * s.leverage))

/-- `_enter_position` (`trading_engine.py` lines 431-505), stripped of
logging and of the GTT helper.  The brokerage round trip is abstracted by
`orderOk` (`order_result['status'] == 'success'`): with `dry_run` no order is
sent but the position is still recorded; with a failed live order the
function returns early and no position is created.  `none` propagates a
failed quantity computation. -/
def enter_position (cfg : Config) (s : TradingSettings) (orderOk : Bool)
    (st : StrategyState) (dir : Direction) (entry_price stop_loss : ℚ) :
    Option (StrategyState × Option Position × List OrderIntent) :=
  let risk := |entry_price - stop_loss|
  let target := if dir = Direction.long then entry_price + risk * cfg.RISK_REWARD_RATIO
    else entry_price - risk * cfg.RISK_REWARD_RATIO
  (calculate_quantity s entry_price stop_loss).map fun quantity =>
    let intent : OrderIntent :=
      { symbol := st.symbol,
        transaction_type := if dir = Direction.long then "BUY" else "SELL",
        quantity := quantity,
        price := entry_price }
    if s.dry_run = false ∧ orderOk = false then (st, none, [intent])
    else
      let p : Position :=
        { id := st.symbol, symbol := st.symbol, direction := dir,
          entry_price := entry_price, current_price := entry_price,
          stop_loss := stop_loss, target := target, quantity := quantity,
          status := "ACTIVE", unrealized_pnl := 0 }
      ({ st with is_position_active := true, entry_price := some entry_price,
                 stop_loss := some stop_loss, target := some target },
       some p,
       if s.dry_run then [] else [intent])

/-- `_check_entry` (`trading_engine.py` lines 389-406).  The two Python
branches on `state.bias` are folded through `entry_price_for` /
`stop_loss_for` / `entry_triggered`, which restate lines 394-406 verbatim
per direction. -/
def check_entry (cfg : Config) (s : TradingSettings) (orderOk : Bool)
    (st : StrategyState) (c : Candle) :
    Option (StrategyState × Option Position × List OrderIntent) :=
  match st.rejection_candle with
  | none => some (st, none, [])
  | some rc =>
    match st.bias with
    | some dir =>
      let entry := entry_price_for cfg dir rc
      let stop := stop_loss_for cfg dir rc
      if entry_triggered dir c entry then
        enter_position cfg s orderOk st dir entry stop
      else some (st, none, [])
    | none => some (st, none, [])

/-- The stop-loss condition of `_monitor_position` (`trading_engine.py`
lines 530-533): checked against the candle's low/high, not its close. -/
def stop_loss_hit (p : Position) (c : Candle) : Prop :=
  (p.direction = Direction.long ∧ c.low ≤ p.stop_loss) ∨
  (p.direction = Direction.short ∧ p.stop_loss ≤ c.high)

/-- The target condition of `_monitor_position` (`trading_engine.py`
lines 536-539). -/
def target_hit (p : Position) (c : Candle) : Prop :=
  (p.direction = Direction.long ∧ p.target ≤ c.high) ∨
  (p.direction = Direction.short ∧ c.low ≤ p.target)

instance (p : Position) (c : Candle) : Decidable (stop_loss_hit p c) := by
  unfold stop_loss_hit; infer_instance

instance (p : Position) (c : Candle) : Decidable (target_hit p c) := by
  unfold target_hit; infer_instance

/-- The price/P&L bookkeeping of `_monitor_position` (`trading_engine.py`
lines 522-527). -/
def monitor_update (p : Position) (c : Candle) : Position :=
  { p with current_price := c.close,
           unrealized_pnl :=
             if p.direction = Direction.long then
               (c.close - p.entry_price) * p.quantity
             else (p.entry_price - c.close) * p.quantity }

/-- The exit decision of `_monitor_position` (`trading_engine.py`
lines 541-545): `some (reason, price)` when an exit is executed.
Stop-loss is tested first (`if` / `elif`). -/
def monitor_decision (p : Position) (c : Candle) : Option (String × ℚ) :=
  if stop_loss_hit p c then some ("STOP_LOSS", p.stop_loss)
  else if target_hit p c then some ("TARGET", p.target)
  else none

/-- `_exit_position` (`trading_engine.py` lines 547-602), logging stripped.
In `dry_run` mode nothing is mutated (line 592-594); in live mode the exit
order is submitted and only on success (`orderOk`) are the position closed
and the strategy state updated (lines 565-579).  The source also assigns
`position.exit_price` and `position.realized_pnl`, fields the pydantic
`Position` model does not declare; they are omitted here, as is the logged-only
`exit_reason` string. -/
def exit_position (s : TradingSettings) (orderOk : Bool) (st : StrategyState)
    (p : Position) (exit_price : ℚ) :
    StrategyState × Position × List OrderIntent :=
  let exit_transaction := if p.direction = Direction.long then "SELL" else "BUY"
  let intent : OrderIntent :=
    { symbol := p.symbol, transaction_type := exit_transaction,
      quantity := p.quantity, price := exit_price }
  if s.dry_run then (st, p, [])
  else if orderOk then
    ({ st with is_position_active := false, trade_completed := true },
     { p with status := "CLOSED", current_price := p.current_price }, [intent])
  else (st, p, [intent])

/-- The outcome of one `_process_symbol_strategy` call for one symbol:
the strategy state, the symbol's (at most one) position, and the order
intents submitted to the brokerage during the call. -/
structure StepResult where
  state : StrategyState
  position : Option Position
  intents : List OrderIntent
deriving DecidableEq, Repr

/-- Placeholder used with `List.getLastD` under a proof of non-emptiness. -/
def dummyCandle : Candle := { open_ := 0, high := 0, low := 0, close := 0, volume := 0 }

/-- `_process_symbol_strategy` (`trading_engine.py` lines 259-318) for one
candle-poll cycle.  The candle history fetch is a parameter (`candles`); the
two wall-clock tests (the 09:57-10:05 setup window of lines 287-292 and the
entry cutoff of line 308) are the Booleans `inSetupWindow` and
`beforeEntryCutoff`.  A `none` from a strategy helper models the exception
caught by the per-symbol handler of lines 316-318: the state and position
are left as they were and no order intent goes out. -/
def processStep (cfg : Config) (s : TradingSettings) (orderOk : Bool)
    (st : StrategyState) (pos : Option Position) (candles : List Candle)
    (inSetupWindow beforeEntryCutoff : Bool) : StepResult :=
  if st.trade_completed then ⟨st, pos, []⟩
  else if candles.length < cfg.SMA_PERIOD + 1 then ⟨st, pos, []⟩
  else
    let latest := candles.getLastD dummyCandle
    let sma := calculate_sma candles cfg.SMA_PERIOD
    let branch : Option (StrategyState × Option Position × List OrderIntent) :=
      if inSetupWindow ∧ st.bias = none then
        some (check_setup st latest sma, none, [])
      else if st.bias ≠ none ∧ st.rejection_candle = none then
        (check_rejection cfg st latest sma).map fun s1 => (s1, none, [])
      else if st.rejection_candle ≠ none ∧ 0 < st.skip_candles_remaining then
        some ({ st with skip_candles_remaining := st.skip_candles_remaining - 1 },
              none, [])
      else if st.rejection_candle ≠ none ∧ st.skip_candles_remaining = 0 ∧
          st.is_position_active = false then
        if beforeEntryCutoff then check_entry cfg s orderOk st latest
        else some (st, none, [])
      else some (st, none, [])
    match branch with
    | none => ⟨st, pos, []⟩
    | some (st1, newPos, intents1) =>
      let pos1 : Option Position :=
        match newPos with
        | some p => some p
        | none => pos
      if st1.is_position_active then
        match pos1 with
        | some p =>
          if p.status = "ACTIVE" then
            let p1 := monitor_update p latest
            match monitor_decision p1 latest with
            | some rp =>
              let r := exit_position s orderOk st1 p1 rp.2
              ⟨r.1, some r.2.1, intents1 ++ r.2.2⟩
            | none => ⟨st1, some p1, intents1⟩
          else ⟨st1, pos1, intents1⟩
        | none => ⟨st1, pos1, intents1⟩
      else ⟨st1, pos1, intents1⟩

/-- The mutable counters of `RiskManager` together with its configured
limits (`risk_manager.py` lines 14-20). -/
structure RiskState where
  max_position_size : ℚ
  max_daily_loss : ℚ
  daily_pnl : ℚ
  positions_count : ℤ
  max_positions : ℤ
deriving DecidableEq, Repr

/-- The order dictionary passed to `validate_order_risk`; `price` is
`order_params.get('price', 0)`-optional. -/
structure OrderParams where
  symbol : String
  quantity : ℤ
  price : Option ℚ
deriving DecidableEq, Repr

/-- Result of `validate_order_risk`: either it returns `True`
(possibly having logged a margin warning) or it raises a
`TradingBotException` with the given error code. -/
inductive RiskOutcome where
  | ok : Bool → RiskOutcome
  | err : String → RiskOutcome
deriving DecidableEq, Repr

/-- The per-symbol freeze-quantity table of `validate_freeze_quantity`
(`risk_manager.py` lines 51-61), default cap 1000. -/
def freeze_limit (symbol : String) : ℤ :=
  if symbol = "RELIANCE" then 10000
  else if symbol = "TCS" then 4000
  else if symbol = "HDFCBANK" then 3000
  else if symbol = "INFY" then 7000
  else if symbol = "ICICIBANK" then 4000
  else if symbol = "SBIN" then 15000
  else 1000

/-- `validate_order_risk` (`risk_manager.py` lines 71-109).  External data is
passed in: `ltp` is the last traded price fetched by `validate_circuit_limits`
(`none` = the brokerage call raised) and `margins` is
`margins['equity']['available']['live_balance']` (`none` = `get_margins`
raised).  The margin block of lines 100-107 wraps BOTH the lookup AND the
`raise TradingBotException("Insufficient margin")` in one
`try/except Exception`, so the insufficient-margin rejection is itself caught
and degraded to the warning; the returned `Bool` of `RiskOutcome.ok` records
whether that warning fired. -/
def validate_order_risk (rs : RiskState) (p : OrderParams)
    (ltp : Option ℚ) (margins : Option ℚ) : RiskOutcome :=
  if rs.daily_pnl ≤ -rs.max_daily_loss then RiskOutcome.err "RISK_LIMIT"
  else
    let order_value := (p.quantity : ℚ) * (p.price.getD 0)
    if order_value > rs.max_position_size then RiskOutcome.err "POSITION_LIMIT"
    else if rs.positions_count ≥ rs.max_positions then RiskOutcome.err "MAX_POSITIONS"
    else
      let circuit : Option RiskOutcome :=
        match p.price with
        | none => none
        | some pr =>
          if pr = 0 then none
          else
            match ltp with
            | none => some (RiskOutcome.err "LTP_LOOKUP_RAISED")
            | some l =>
              if l = 0 then some (RiskOutcome.err "LTP_ERROR")
              else if ¬ (l * (80/100) ≤ pr ∧ pr ≤ l * (120/100)) then
                some (RiskOutcome.err "CIRCUIT_LIMIT")
              else none
      match circuit with
      | some e => e
      | none =>
        if p.quantity > freeze_limit p.symbol then RiskOutcome.err "FREEZE_LIMIT"
        else
          let warned :=
            match margins with
            | none => true
            | some m => decide (order_value > m)
          RiskOutcome.ok warned

/-- A dynamically-typed Python value: the engine passes both numbers and
strings through the positional parameters of `_exit_position`. -/
inductive PyVal where
  | num : ℚ → PyVal
  | str : String → PyVal
deriving DecidableEq, Repr

/-- The second and third positional arguments of a call to
`_exit_position(self, position, exit_reason, exit_price)`. -/
structure ExitArgs where
  exit_reason : PyVal
  exit_price : PyVal
deriving DecidableEq, Repr

/-- The call made by `_force_exit_all_positions` for each active position
(`trading_engine.py` line 614):
`self._exit_position(position, position.current_price, "FORCE_EXIT")` —
transcribed positionally against the `(exit_reason, exit_price)` signature
of lines 547. -/
def force_exit_args (p : Position) : ExitArgs :=
  { exit_reason := PyVal.num p.current_price, exit_price := PyVal.str "FORCE_EXIT" }

/-- `_force_exit_all_positions` (`trading_engine.py` lines 604-617): the
`_exit_position` invocations it issues, one per ACTIVE position. -/
def force_exit_calls (positions : List Position) : List (Position × ExitArgs) :=
  (positions.filter fun p => p.status = "ACTIVE").map fun p => (p, force_exit_args p)

/-- What `_exit_position` does with its `exit_price` argument: it is used as
the exit order's numeric `price` and formatted with `:.2f`; a non-numeric
value makes the call raise (`TypeError` in the risk gate's
`quantity * price`, `ValueError` in the f-string), so no exit at a numeric
price can result. -/
def exit_order_price (a : ExitArgs) : Option ℚ :=
  match a.exit_price with
  | PyVal.num q => some q
  | PyVal.str _ => none

/-- A symbol in state BIAS_SET with long bias, as after a valid 10 AM setup. -/
def biasSetLong : StrategyState :=
  { symbol := "RELIANCE", bias := some Direction.long }

/-- The rejection candle of the specification's worked scenario:
open=102, close=101.5, low=99.5, high=102 against SMA=100. -/
def rejectionExampleCandle : Candle :=
  { open_ := 102, high := 102, low := 199/2, close := 203/2, volume := 0 }

/-- C1: the claim says a candle meeting the rejection condition moves a
BIAS_SET long symbol to REJECTION_CONFIRMED with `skip_candles_remaining`
set and `trade_completed` still false, COMPLETED arising only from an
adverse crossing BEFORE confirmation.  On the specification's own example
candle (low 99.5 ≤ SMA 100 ≤ body 101.5, wick 80% ≥ 15%) the code confirms
the rejection AND, because the adverse-crossing check of lines 384-387 runs
unconditionally after the confirming branch and low 99.5 < SMA 100, sets
`trade_completed := true` in the same call — the day is invalidated at the
moment of confirmation, so the armed entry can never fire. -/
theorem rejection_confirmed_and_day_invalidated_same_candle :
    check_rejection defaultConfig biasSetLong rejectionExampleCandle 100 =
      some { biasSetLong with
              rejection_candle := some rejectionExampleCandle,
              skip_candles_remaining := 2,
              trade_completed := true } := by
  norm_num [check_rejection, biasSetLong, rejectionExampleCandle, defaultConfig,
    pyDiv, min_def, max_def]

/-- An ACTIVE position with last known price 105, as held by the engine when
the force-exit time arrives. -/
def forceExitDemoPosition : Position :=
  { id := "RELIANCE_1", symbol := "RELIANCE", direction := Direction.long,
    entry_price := 100, current_price := 105, stop_loss := 95, target := 110,
    quantity := 10, status := "ACTIVE", unrealized_pnl := 50 }

/-- C2: the claim says the forced exit closes each ACTIVE position at its
last known `current_price` with `exit_reason = FORCE_EXIT`.  The call at
line 614 passes `(position.current_price, "FORCE_EXIT")` into the
`(exit_reason, exit_price)` slots of `_exit_position`'s signature: the exit
price is the STRING "FORCE_EXIT" (on which the numeric order-price uses
raise) and the reason is the NUMBER 105, so the position cannot be closed at
its current price with reason FORCE_EXIT. -/
theorem force_exit_passes_swapped_arguments :
    force_exit_calls [forceExitDemoPosition] =
      [(forceExitDemoPosition,
        { exit_reason := PyVal.num 105, exit_price := PyVal.str "FORCE_EXIT" })] ∧
    exit_order_price (force_exit_args forceExitDemoPosition) = none ∧
    (force_exit_args forceExitDemoPosition).exit_price ≠
      PyVal.num forceExitDemoPosition.current_price ∧
    (force_exit_args forceExitDemoPosition).exit_reason ≠
      PyVal.str "FORCE_EXIT" := by
  refine ⟨rfl, rfl, ?_, ?_⟩ <;>
    simp [force_exit_args, forceExitDemoPosition, exit_order_price]

/-- The risk counters used in the margin scenario: fresh day, default limits. -/
def marginDemoRisk : RiskState :=
  { max_position_size := 100000, max_daily_loss := 10000, daily_pnl := 0,
    positions_count := 0, max_positions := 5 }

/-- An order of 100 shares at 100: notional 10000, passing every check up to
the margin comparison. -/
def marginDemoOrder : OrderParams :=
  { symbol := "RELIANCE", quantity := 100, price := some 100 }

/-- C3: the claim says that when the margin lookup succeeds and the notional
exceeds the available margin, the Risk Gate rejects the intent, a warning
being reserved for lookup failures.  In the code the
`raise TradingBotException("Insufficient margin")` sits inside the same
`try/except Exception` as the lookup (lines 100-107), so the rejection is
swallowed: with notional 10000 > margin 5000 and the lookup succeeding,
`validate_order_risk` still returns True, merely having logged the warning
(the `true` flag below). -/
theorem margin_excess_only_warns :
    validate_order_risk marginDemoRisk marginDemoOrder (some 100) (some 5000) =
      RiskOutcome.ok true ∧
    (100 : ℚ) * 100 > 5000 := by
  constructor
  · norm_num [validate_order_risk, marginDemoRisk, marginDemoOrder, freeze_limit]
  · norm_num

/-- C4: setup classification is total and deterministic — `_check_setup` is a
function, and for every candle (with its low at or below its high) and SMA
exactly one of the three guards fires: low strictly above the SMA gives a
long bias, high strictly below gives a short bias, and otherwise (SMA within
the candle's range) the state goes straight to COMPLETED
(`trade_completed := true`) with no trade that day. -/
theorem setup_classification_total (st : StrategyState) (c : Candle) (sma : ℚ)
    (h : c.low ≤ c.high) :
    ¬ (c.low > sma ∧ c.high < sma) ∧
    (c.low > sma →
      check_setup st c sma =
        { st with bias := some Direction.long, setup_candle := some c }) ∧
    (c.high < sma →
      check_setup st c sma =
        { st with bias := some Direction.short, setup_candle := some c }) ∧
    (¬ c.low > sma → ¬ c.high < sma →
      check_setup st c sma = { st with trade_completed := true }) := by
  refine ⟨?_, ?_, ?_, ?_⟩
  · rintro ⟨h1, h2⟩
    linarith
  · intro h1
    simp [check_setup, h1]
  · intro h2
    have h1 : ¬ c.low > sma := by
      push_neg
      linarith
    simp [check_setup, h1, h2]
  · intro h1 h2
    simp [check_setup, h1, h2]

/-- Witness for C4: a candle strictly above SMA=100 is classified long. -/
theorem setup_classification_total_witness :
    check_setup { symbol := "W4" }
        { open_ := 102, high := 103, low := 101, close := 102, volume := 0 } 100 =
      { symbol := "W4", bias := some Direction.long,
        setup_candle :=
          some { open_ := 102, high := 103, low := 101, close := 102, volume := 0 } } := by
  exact (setup_classification_total { symbol := "W4" }
    { open_ := 102, high := 103, low := 101, close := 102, volume := 0 } 100
    (by norm_num)).2.1 (by norm_num)

/-- C5: for an ENTRY_ARMED symbol (bias set, rejection candle recorded),
entry price and stop-loss are the rejection candle's high/low shifted by the
configured offsets, the entry fires exactly when the trigger condition on
the later candle holds (high ≥ entry for long, low ≤ entry for short), and
the created position carries target = entry ± reward_ratio × |entry − stop|,
so the target is reproducible from entry, stop, ratio and direction alone.
Stated for both directions through `entry_price_for` / `stop_loss_for` /
`entry_triggered` / `target_for`, whose defining equations for each
direction are part of the statement. -/
theorem entry_arming_and_target (cfg : Config) (s : TradingSettings) (ok : Bool)
    (st : StrategyState) (rc c : Candle) (dir : Direction) (q : ℤ)
    (hb : st.bias = some dir) (hr : st.rejection_candle = some rc)
    (hq : calculate_quantity s (entry_price_for cfg dir rc)
            (stop_loss_for cfg dir rc) = some q)
    (hd : s.dry_run = true) :
    (entry_price_for cfg Direction.long rc = rc.high + cfg.ENTRY_OFFSET ∧
     stop_loss_for cfg Direction.long rc = rc.low - cfg.SL_OFFSET ∧
     entry_price_for cfg Direction.short rc = rc.low - cfg.ENTRY_OFFSET ∧
     stop_loss_for cfg Direction.short rc = rc.high + cfg.SL_OFFSET) ∧
    (∀ e : ℚ, entry_triggered Direction.long c e = decide (e ≤ c.high) ∧
              entry_triggered Direction.short c e = decide (c.low ≤ e)) ∧
    (∀ e t : ℚ, target_for cfg dir e t =
      e + (if dir = Direction.long then 1 else -1) * (cfg.RISK_REWARD_RATIO * |e - t|)) ∧
    (entry_triggered dir c (entry_price_for cfg dir rc) = false →
      check_entry cfg s ok st c = some (st, none, [])) ∧
    (entry_triggered dir c (entry_price_for cfg dir rc) = true →
      check_entry cfg s ok st c =
        some ({ st with
                  is_position_active := true,
                  entry_price := some (entry_price_for cfg dir rc),
                  stop_loss := some (stop_loss_for cfg dir rc),
                  target := some (target_for cfg dir (entry_price_for cfg dir rc)
                    (stop_loss_for cfg dir rc)) },
              some { id := st.symbol, symbol := st.symbol, direction := dir,
                     entry_price := entry_price_for cfg dir rc,
                     current_price := entry_price_for cfg dir rc,
                     stop_loss := stop_loss_for cfg dir rc,
                     target := target_for cfg dir (entry_price_for cfg dir rc)
                       (stop_loss_for cfg dir rc),
                     quantity := q, status := "ACTIVE", unrealized_pnl := 0 },
              [])) := by
  refine ⟨⟨rfl, rfl, rfl, rfl⟩, fun e => ⟨?_, ?_⟩, fun e t => ?_, ?_, ?_⟩
  · simp [entry_triggered]
  · simp [entry_triggered]
  · cases dir <;> simp [target_for] <;> ring
  · intro hno
    simp [check_entry, hb, hr, hno]
  · intro hyes
    cases dir <;>
      simp [check_entry, enter_position, target_for, hb, hr, hq, hd, hyes]

/-- The ENTRY_ARMED state after the worked scenario's rejection. -/
def armedLong : StrategyState :=
  { symbol := "RELIANCE", bias := some Direction.long,
    rejection_candle := some rejectionExampleCandle }

/-- The candle whose high 103 reaches the armed entry price 102.01. -/
def entryTriggerCandle : Candle :=
  { open_ := 102, high := 103, low := 101, close := 103, volume := 0 }

/-- Witness for C5: with the default configuration, the armed long symbol
enters on a candle with high 103 ≥ 102.01, at entry 102.01, stop 99.49 and
target 102.01 + 5 × 2.52, quantity 980 = ⌊100000 / 102.01⌋. -/
theorem entry_arming_and_target_witness :
    check_entry defaultConfig defaultSettings true armedLong entryTriggerCandle =
      some ({ armedLong with
                is_position_active := true,
                entry_price :=
                  some (entry_price_for defaultConfig Direction.long rejectionExampleCandle),
                stop_loss :=
                  some (stop_loss_for defaultConfig Direction.long rejectionExampleCandle),
                target := some (target_for defaultConfig Direction.long
                  (entry_price_for defaultConfig Direction.long rejectionExampleCandle)
                  (stop_loss_for defaultConfig Direction.long rejectionExampleCandle)) },
            some { id := "RELIANCE", symbol := "RELIANCE", direction := Direction.long,
                   entry_price :=
                     entry_price_for defaultConfig Direction.long rejectionExampleCandle,
                   current_price :=
                     entry_price_for defaultConfig Direction.long rejectionExampleCandle,
                   stop_loss :=
                     stop_loss_for defaultConfig Direction.long rejectionExampleCandle,
                   target := target_for defaultConfig Direction.long
                     (entry_price_for defaultConfig Direction.long rejectionExampleCandle)
                     (stop_loss_for defaultConfig Direction.long rejectionExampleCandle),
                   quantity := 980, status := "ACTIVE", unrealized_pnl := 0 },
            []) := by
  exact (entry_arming_and_target defaultConfig defaultSettings true armedLong
    rejectionExampleCandle entryTriggerCandle Direction.long 980 rfl rfl
    (by norm_num [calculate_quantity, pyDiv, pyInt, entry_price_for, stop_loss_for,
      rejectionExampleCandle, defaultSettings, defaultConfig])
    rfl).2.2.2.2
    (by norm_num [entry_triggered, entry_price_for, rejectionExampleCandle,
      entryTriggerCandle, defaultConfig])

/-- C6: `_monitor_position` tests stop-loss and target against the candle's
low/high (the conditions `stop_loss_hit` / `target_hit` read only those
fields, so the decision is invariant under any change of the close), and
when both conditions hold within the same candle the `if`/`elif` order makes
the position exit at the stop-loss price with reason STOP_LOSS. -/
theorem stop_loss_priority_over_target (p : Position) (c : Candle)
    (hs : stop_loss_hit p c) (_ht : target_hit p c) :
    monitor_decision p c = some ("STOP_LOSS", p.stop_loss) ∧
    (∀ x : ℚ, monitor_decision p { c with close := x } = monitor_decision p c) := by
  constructor
  · simp [monitor_decision, hs]
  · intro x
    rfl

/-- A long position whose stop 95 and target 110 are both touched by the
candle below (low 94 ≤ 95, high 111 ≥ 110). -/
def bothHitPosition : Position :=
  { id := "W6", symbol := "W6", direction := Direction.long,
    entry_price := 100, current_price := 100, stop_loss := 95, target := 110,
    quantity := 1, status := "ACTIVE", unrealized_pnl := 0 }

/-- The candle touching both levels of `bothHitPosition`. -/
def bothHitCandle : Candle :=
  { open_ := 100, high := 111, low := 94, close := 100, volume := 0 }

/-- Witness for C6: with both levels touched, the exit is at the stop. -/
theorem stop_loss_priority_over_target_witness :
    monitor_decision bothHitPosition bothHitCandle =
      some ("STOP_LOSS", bothHitPosition.stop_loss) := by
  exact (stop_loss_priority_over_target bothHitPosition bothHitCandle
    (Or.inl ⟨rfl, by norm_num [bothHitPosition, bothHitCandle]⟩)
    (Or.inl ⟨rfl, by norm_num [bothHitPosition, bothHitCandle]⟩)).1

/-- C7: `trade_completed = true` short-circuits `_process_symbol_strategy`
(lines 264-266): the whole cycle leaves the strategy state and the position
untouched and submits no order intent — COMPLETED is terminal for the day. -/
theorem trade_completed_is_terminal (cfg : Config) (s : TradingSettings)
    (ok : Bool) (st : StrategyState) (pos : Option Position)
    (candles : List Candle) (w b : Bool)
    (h : st.trade_completed = true) :
    processStep cfg s ok st pos candles w b = ⟨st, pos, []⟩ := by
  simp [processStep, h]

/-- A strategy state whose trade is already completed for the day. -/
def completedState : StrategyState :=
  { symbol := "W7", bias := some Direction.long, trade_completed := true }

/-- Witness for C7: a completed symbol is left untouched by a further cycle. -/
theorem trade_completed_is_terminal_witness :
    processStep defaultConfig defaultSettings true completedState none
        [] true true = ⟨completedState, none, []⟩ := by
  exact trade_completed_is_terminal defaultConfig defaultSettings true
    completedState none [] true true rfl

/-- C8: the Risk Gate's check (b) fires for every intent whose notional
`quantity × price` exceeds `max_position_size`, provided the daily-loss
check (a) before it passes: `validate_order_risk` raises POSITION_LIMIT
whatever the circuit, freeze or margin data. -/
theorem notional_above_position_size_rejected (rs : RiskState) (p : OrderParams)
    (ltp margins : Option ℚ)
    (hpnl : -rs.max_daily_loss < rs.daily_pnl)
    (hval : rs.max_position_size < (p.quantity : ℚ) * p.price.getD 0) :
    validate_order_risk rs p ltp margins = RiskOutcome.err "POSITION_LIMIT" := by
  have h1 : ¬ rs.daily_pnl ≤ -rs.max_daily_loss := not_le.mpr hpnl
  simp [validate_order_risk, h1, hval]

/-- The risk counters of the claim's concrete scenario. -/
def positionLimitDemoRisk : RiskState :=
  { max_position_size := 100000, max_daily_loss := 10000, daily_pnl := 0,
    positions_count := 0, max_positions := 5 }

/-- The claim's concrete order: 2000 shares at 100, notional 200000. -/
def positionLimitDemoOrder : OrderParams :=
  { symbol := "RELIANCE", quantity := 2000, price := some 100 }

/-- Witness for C8: quantity 2000 at price 100 against
max_position_size 100000 is rejected with POSITION_LIMIT. -/
theorem notional_above_position_size_rejected_witness :
    validate_order_risk positionLimitDemoRisk positionLimitDemoOrder none none =
      RiskOutcome.err "POSITION_LIMIT" := by
  exact notional_above_position_size_rejected positionLimitDemoRisk
    positionLimitDemoOrder none none
    (by norm_num [positionLimitDemoRisk])
    (by norm_num [positionLimitDemoRisk, positionLimitDemoOrder])

/-- C9: in state BIAS_SET (either bias, no rejection yet) a candle with
high = low makes the wick-percent division divide by `high - low = 0`
before the condition is tested, so `_check_rejection` raises; the
per-symbol handler of lines 316-318 catches it and the whole cycle leaves
the state and position untouched with no order intent.  Under the
precondition low < high the computation is defined for every SMA. -/
theorem flat_candle_rejection_isolated (cfg : Config) (s : TradingSettings)
    (ok : Bool) (st : StrategyState) (pos : Option Position)
    (candles : List Candle) (w b : Bool) (dir : Direction)
    (hb : st.bias = some dir) (hr : st.rejection_candle = none)
    (htc : st.trade_completed = false)
    (hlen : ¬ candles.length < cfg.SMA_PERIOD + 1)
    (hflat : (candles.getLastD dummyCandle).high = (candles.getLastD dummyCandle).low) :
    check_rejection cfg st (candles.getLastD dummyCandle)
        (calculate_sma candles cfg.SMA_PERIOD) = none ∧
    processStep cfg s ok st pos candles w b = ⟨st, pos, []⟩ ∧
    (∀ (c2 : Candle) (sma : ℚ), c2.low < c2.high →
      (check_rejection cfg st c2 sma).isSome = true) := by
  have key : ∀ (c : Candle) (sma : ℚ), c.high - c.low = 0 →
      check_rejection cfg st c sma = none := by
    intro c sma hc
    cases dir <;> simp [check_rejection, hb, pyDiv, hc]
  have hrange : (candles.getLastD dummyCandle).high -
      (candles.getLastD dummyCandle).low = 0 := by
    rw [hflat, sub_self]
  have hrange2 : (candles.getLast?.getD dummyCandle).high -
      (candles.getLast?.getD dummyCandle).low = 0 := by
    rw [← List.getLastD_eq_getLast?]
    exact hrange
  refine ⟨key _ _ hrange, ?_, ?_⟩
  · simp [processStep, htc, hlen, hb, hr,
      key (candles.getLast?.getD dummyCandle) (calculate_sma candles cfg.SMA_PERIOD) hrange2]
  · intro c2 sma h2
    have hne : c2.high - c2.low ≠ 0 := sub_ne_zero.mpr (ne_of_gt h2)
    cases dir <;> simp [check_rejection, hb, pyDiv, hne]

/-- A BIAS_SET state awaiting a rejection candle. -/
def biasSetShortW9 : StrategyState :=
  { symbol := "W9", bias := some Direction.short }

/-- A small configuration (SMA over 1 close) for the concrete witness run. -/
def smallConfig : Config := { SMA_PERIOD := 1 }

/-- A one-price candle: high = low = close = open = 100. -/
def flatCandle : Candle :=
  { open_ := 100, high := 100, low := 100, close := 100, volume := 0 }

/-- Witness for C9: a cycle on a flat candle in BIAS_SET leaves everything
unchanged and emits no intent. -/
theorem flat_candle_rejection_isolated_witness :
    processStep smallConfig defaultSettings true biasSetShortW9 none
        [flatCandle, flatCandle] false true = ⟨biasSetShortW9, none, []⟩ := by
  exact (flat_candle_rejection_isolated smallConfig defaultSettings true
    biasSetShortW9 none [flatCandle, flatCandle] false true Direction.short
    rfl rfl rfl (by norm_num [smallConfig]) rfl).2.1

/-- The settings that select the `fixed_risk` sizing branch. -/
def fixedRiskSettings : TradingSettings := { position_sizing := Sizing.fixed_risk }

/-- C10 counterexample: with `fixed_risk` sizing and entry_price = stop_loss
= 100 (an entry_price > 0), `_calculate_quantity` divides by
`risk_per_share = |entry - stop| = 0` and raises instead of returning a
quantity, so the claim's "always returns a quantity of at least 1 for every
entry_price > 0 and stop_loss" fails. -/
theorem quantity_zero_risk_division_fails :
    calculate_quantity fixedRiskSettings 100 100 = none := by
  simp [calculate_quantity, fixedRiskSettings, pyDiv]

/-- C10 (amended): whenever the sizing computation is defined — always in
`fixed_capital` mode for entry_price > 0, and in `fixed_risk` mode when
additionally entry ≠ stop — the result is `max 1 (int(base × leverage))`,
hence at least 1, even when `fixed_capital_per_trade < entry_price`. -/
theorem quantity_at_least_one (s : TradingSettings) (entry stop : ℚ)
    (he : 0 < entry)
    (hmode : s.position_sizing = Sizing.fixed_capital ∨ entry ≠ stop) :
    ∃ q0 : ℤ, calculate_quantity s entry stop =
        some (max 1 (pyInt ((q0 : ℚ) * s.leverage))) ∧
      1 ≤ max 1 (pyInt ((q0 : ℚ) * s.leverage)) := by
  cases hmodeEq : s.position_sizing
  case fixed_capital =>
    refine ⟨pyInt (s.fixed_capital_per_trade / entry), ?_, le_max_left _ _⟩
    simp [calculate_quantity, hmodeEq, pyDiv, ne_of_gt he]
  case fixed_risk =>
    have hne : entry ≠ stop := by
      rcases hmode with hm | hm
      · rw [hmodeEq] at hm
        exact absurd hm (by simp)
      · exact hm
    have habs : |entry - stop| ≠ 0 := abs_ne_zero.mpr (sub_ne_zero.mpr hne)
    refine ⟨pyInt (s.fixed_capital_per_trade * 50 * (s.risk_percent / 100) /
      |entry - stop|), ?_, le_max_left _ _⟩
    simp [calculate_quantity, hmodeEq, pyDiv, habs]

/-- Witness for C10 (amended): default fixed-capital settings with
entry_price 200000 above the per-trade capital 100000 still yield the
minimum quantity 1. -/
theorem quantity_at_least_one_witness :
    ∃ q0 : ℤ, calculate_quantity defaultSettings 200000 100 =
        some (max 1 (pyInt ((q0 : ℚ) * defaultSettings.leverage))) ∧
      1 ≤ max 1 (pyInt ((q0 : ℚ) * defaultSettings.leverage)) := by
  exact quantity_at_least_one defaultSettings 200000 100 (by norm_num)
    (Or.inl rfl)
